import Mathlib

/-!
Shallow embedding of `src/static/js/script.js` (NewsHub client script).

Each click handler of the script is modelled as a pure function from its
inputs — the DOM state it reads, the cookie string, and the outcome of the
one `fetch` it may issue — to an outcome record listing the HTTP requests it
issued, the `alert` dialogs it showed, and the new state of the DOM element
it touches.  A rejected `fetch` promise and a failing `response.json()` are
both modelled by `FetchOutcome.failed`; a parsed JSON body by
`FetchOutcome.ok`.
-/

/-- Outcome of a `fetch(...).then(r => r.json())` chain: either a parsed JSON
body of type `α`, or a rejection (network error or JSON parse error), which
the script handles in its `.catch` block. -/
inductive FetchOutcome (α : Type) where
  | ok (data : α)
  | failed
deriving Repr, DecidableEq

/-- An HTTP request as assembled by a `fetch(url, {...})` call in the script.
`contentType` and `csrfToken` are the values of the two headers the script
sets (`none` when the header is not set; for `csrfToken`, `some v` where `v`
is the `Option String` returned by the `getCookie` model, since `getCookie`
can return null).  `body` is the flat key/value object passed to
`JSON.stringify` (`none` when the call sends no body). -/
structure Request where
  url : String
  method : String
  contentType : Option String
  csrfToken : Option (Option String)
  body : Option (List (String × String))
deriving Repr, DecidableEq

/-- Result of one handler invocation: the fetch calls it issued, the alert
messages it showed (in order), and the final state of the DOM it mutates. -/
structure HandlerOutcome (σ : Type) where
  requests : List Request
  alerts : List String
  dom : σ
deriving Repr, DecidableEq

/-- Model of the JavaScript expression `x || d` for a possibly-absent string
`x` (absent and the empty string are both falsy). -/
def jsOrDefault (o : Option String) (d : String) : String :=
  match o with
  | some s => if s = "" then d else s
  | none => d

/-- The alert message built in every `else` branch of the script:
`alert('Ошибка: ' + (data.error || 'Неизвестная ошибка'))`. -/
def errAlert (e : Option String) : String :=
  "Ошибка: " ++ jsOrDefault e "Неизвестная ошибка"

/-- Numeric value of a hex digit, as used by the `decodeURIComponent` model. -/
def hexVal (c : Char) : Option Nat :=
  if ('0' ≤ c ∧ c ≤ '9') then some (c.toNat - '0'.toNat)
  else if ('a' ≤ c ∧ c ≤ 'f') then some (c.toNat - 'a'.toNat + 10)
  else if ('A' ≤ c ∧ c ≤ 'F') then some (c.toNat - 'A'.toNat + 10)
  else none

/-- Percent-decoding model of `decodeURIComponent`, restricted to single-byte
escapes; a malformed escape is kept verbatim (the real function throws a
`URIError` there, a case no claim depends on). -/
def percentDecode : List Char → List Char
  | [] => []
  | '%' :: a :: b :: rest =>
    match hexVal a, hexVal b with
    | some ha, some hb => Char.ofNat (16 * ha + hb) :: percentDecode rest
    | _, _ => '%' :: a :: b :: percentDecode rest
  | c :: rest => c :: percentDecode rest

/-- Model of `decodeURIComponent` on strings. -/
def decodeURIComponent (s : String) : String :=
  String.mk (percentDecode s.data)

/-- Model of JavaScript `String.prototype.trim`: drop leading and trailing
whitespace (the script only ever meets the ASCII whitespace characters
covered by `Char.isWhitespace`). -/
def jsTrim (s : String) : String :=
  String.mk (((s.data.dropWhile Char.isWhitespace).reverse.dropWhile Char.isWhitespace).reverse)

/-- Embedding of `getCookie(name)` from the script: when `document.cookie` is
non-empty, split it on semicolons, trim each part, and return the decoded
value of the first part whose text up to and including the first `=` equals
`name + '='`; otherwise return null (`none`).  JavaScript string lengths are
UTF-16 code-unit counts; for the ASCII names the script uses they agree with
the character counts used here. -/
def getCookie (cookieStr : String) (name : String) : Option String :=
  if cookieStr = "" then none
  else
    match (cookieStr.splitOn ";").find? (fun c => (name ++ "=").isPrefixOf (jsTrim c)) with
    | some c => some (decodeURIComponent ((jsTrim c).drop (name.length + 1)))
    | none => none

/-- The `data-*` attributes read from a favorite button.  `source` keeps the
raw JSON text of `data-source` (the script parses it with `JSON.parse` and
`JSON.stringify` re-serializes it inside the body). -/
structure FavDataset where
  url : String
  title : String
  description : String
  image : String
  source : String
  published : String
deriving Repr, DecidableEq

/-- State of a favorite button: its dataset, the text content of its
`.favorite-icon` child, and its `title` attribute. -/
structure FavButton where
  dataset : FavDataset
  icon : String
  titleAttr : String
deriving Repr, DecidableEq

/-- Parsed JSON body of a `/api/toggle-favorite/` response. -/
structure FavResp where
  success : Bool
  is_favorite : Bool
  error : Option String
deriving Repr, DecidableEq

/-- The request assembled by the favorite-button click handler. -/
def favoriteRequest (ds : FavDataset) (cookieStr : String) : Request :=
  { url := "/api/toggle-favorite/"
    method := "POST"
    contentType := some "application/json"
    csrfToken := some (getCookie cookieStr "csrftoken")
    body := some [("url", ds.url), ("title", ds.title), ("description", ds.description),
                  ("urlToImage", ds.image), ("source", ds.source), ("publishedAt", ds.published)] }

/-- Embedding of the click handler installed by `initFavoriteButtons`. -/
def favoriteClick (btn : FavButton) (cookieStr : String) (resp : FetchOutcome FavResp) :
    HandlerOutcome FavButton :=
  let req := favoriteRequest btn.dataset cookieStr
  match resp with
  | .ok data =>
    if data.success then
      if data.is_favorite then
        { requests := [req], alerts := [],
          dom := { btn with icon := "⭐", titleAttr := "Удалить из избранного" } }
      else
        { requests := [req], alerts := [],
          dom := { btn with icon := "☆", titleAttr := "Добавить в избранное" } }
    else
      { requests := [req], alerts := [errAlert data.error], dom := btn }
  | .failed =>
    { requests := [req], alerts := ["Произошла ошибка при сохранении в избранное"], dom := btn }

/-- State of one `.reaction-btn` element inside an article card: its
`data-reaction` value, whether its class list contains `active`, and the text
content and `style.display` of its `.reaction-count` child. -/
structure ReactionButton where
  reaction : String
  active : Bool
  countText : String
  countDisplay : String
deriving Repr, DecidableEq

/-- Parsed JSON body of a `/api/add-reaction/` response.  `reaction_type` is
null (`none`) when the reaction was cleared; `reactions_count` is a JSON
object mapping reaction types to counts, possibly absent (`none`). -/
structure ReactResp where
  success : Bool
  reaction_type : Option String
  reactions_count : Option (List (String × Nat))
  error : Option String
deriving Repr, DecidableEq

/-- Value of the JavaScript expression
`reactionsCount && reactionsCount[reactionType] ? reactionsCount[reactionType] : 0`:
the entry for `k` when the map is present and the entry is a truthy (nonzero)
number, and `0` otherwise.  A JSON object has no duplicate keys, so the first
matching entry is the entry. -/
def jsCountLookup (rc : Option (List (String × Nat))) (k : String) : Nat :=
  match rc with
  | none => 0
  | some m =>
    match m.find? (fun p => p.fst == k) with
    | some p => p.snd
    | none => 0

/-- Embedding of the body of the `forEach` in `updateReactionButtons` applied
to one button: remove the `active` class, re-add it when the user's reaction
equals the button's `data-reaction`, and update the count element. -/
def updateReactionButton (rc : Option (List (String × Nat))) (ur : Option String)
    (btn : ReactionButton) : ReactionButton :=
  let btn1 := { btn with active := false }
  let btn2 := if ur = some btn.reaction then { btn1 with active := true } else btn1
  let count := jsCountLookup rc btn.reaction
  if count > 0 then
    { btn2 with countText := toString count, countDisplay := "inline" }
  else
    { btn2 with countText := "", countDisplay := "none" }

/-- Embedding of `updateReactionButtons(articleCard, reactionsCount,
userReaction)`: the card is the list of its `.reaction-btn` elements, each
updated by `updateReactionButton`. -/
def updateReactionButtons (card : List ReactionButton) (rc : Option (List (String × Nat)))
    (ur : Option String) : List ReactionButton :=
  card.map (updateReactionButton rc ur)

/-- The request assembled by the reaction-button click handler from the
button's `data-reaction` and `data-url` attributes. -/
def reactionRequest (reactionType articleUrl : String) (cookieStr : String) : Request :=
  { url := "/api/add-reaction/"
    method := "POST"
    contentType := some "application/json"
    csrfToken := some (getCookie cookieStr "csrftoken")
    body := some [("url", articleUrl), ("reaction_type", reactionType)] }

/-- Embedding of the click handler installed by `initReactionButtons`:
`card` is the enclosing `.news-card`'s list of reaction buttons, updated on
success by `updateReactionButtons`. -/
def reactionClick (reactionType articleUrl : String) (card : List ReactionButton)
    (cookieStr : String) (resp : FetchOutcome ReactResp) :
    HandlerOutcome (List ReactionButton) :=
  let req := reactionRequest reactionType articleUrl cookieStr
  match resp with
  | .ok data =>
    if data.success then
      { requests := [req], alerts := [],
        dom := updateReactionButtons card data.reactions_count data.reaction_type }
    else
      { requests := [req], alerts := [errAlert data.error], dom := card }
  | .failed =>
    { requests := [req], alerts := ["Произошла ошибка при добавлении реакции"], dom := card }

/-- The double-quote character, written via its code point. -/
def dquote : Char := Char.ofNat 34

/-- The single-quote (apostrophe) character, written via its code point. -/
def squote : Char := Char.ofNat 39

/-- Embedding of the replacement map of `escapeHtml` applied to one
character: `text.replace(/[&<>"']/g, m => map[m])` replaces each of the five
special characters by its entity and leaves every other character alone. -/
def escapeChar (c : Char) : List Char :=
  if c = '&' then ['&', 'a', 'm', 'p', ';']
  else if c = '<' then ['&', 'l', 't', ';']
  else if c = '>' then ['&', 'g', 't', ';']
  else if c = dquote then ['&', 'q', 'u', 'o', 't', ';']
  else if c = squote then ['&', '#', '0', '3', '9', ';']
  else [c]

/-- Embedding of `escapeHtml(text)` from the script. -/
def escapeHtml (t : String) : String :=
  String.mk (t.data.flatMap escapeChar)

/-- The `comment` object of a successful add-comment or edit-comment
response.  All three fields are JSON values that the script interpolates into
strings, so they are kept as strings here. -/
structure CommentResp where
  id : String
  text : String
  created_at : String
deriving Repr, DecidableEq

/-- The `innerHTML` string assembled by `addCommentToDOM` from its template
literal (tabs and newlines as in the source): the comment text goes through
`escapeHtml`, while `created_at` and `id` are interpolated as-is. -/
def commentItemHtml (c : CommentResp) : String :=
  "\n\t\t<div class=\"comment-content\">\n\t\t\t<p class=\"comment-text\">"
    ++ escapeHtml c.text
    ++ "</p>\n\t\t\t<span class=\"comment-date\">"
    ++ c.created_at
    ++ "</span>\n\t\t</div>\n\t\t<div class=\"comment-actions\">\n\t\t\t<button class=\"edit-comment-btn\" data-comment-id=\""
    ++ c.id
    ++ "\">Редактировать</button>\n\t\t\t<button class=\"delete-comment-btn\" data-comment-id=\""
    ++ c.id
    ++ "\">Удалить</button>\n\t\t</div>\n\t"

/-- A `.comment-item` element as created by `addCommentToDOM`: its
`data-comment-id` and its `innerHTML`. -/
structure RenderedComment where
  commentId : String
  html : String
deriving Repr, DecidableEq

/-- The part of a `.comments-list` element that `addCommentToDOM` touches:
its `.comment-item` children and the number of `.no-comments` placeholder
children. -/
structure CommentsListState where
  comments : List RenderedComment
  noCommentsMsgs : Nat
deriving Repr, DecidableEq

/-- Embedding of `addCommentToDOM(articleId, comment)` acting on the comments
list it looks up for the article (assumed present in the page): remove the
first `.no-comments` placeholder when one exists, then append a new
`.comment-item` built from the template. -/
def addCommentToDOM (ls : CommentsListState) (c : CommentResp) : CommentsListState :=
  let ls1 := { ls with noCommentsMsgs := ls.noCommentsMsgs - 1 }
  { ls1 with comments := ls1.comments ++ [{ commentId := c.id, html := commentItemHtml c }] }

/-- Parsed JSON body of an `/api/add-comment/` response.  On failure the
`comment` field is absent; the script reads it only on success, and the model
carries a value that is then unused. -/
structure AddCommentResp where
  success : Bool
  comment : CommentResp
  error : Option String
deriving Repr, DecidableEq

/-- The DOM state the add-comment click handler reads and writes: the value
of the comment input preceding the button and the comments list of the
article. -/
structure AddCommentState where
  inputValue : String
  list : CommentsListState
deriving Repr, DecidableEq

/-- The request assembled by the add-comment click handler; `text` is the
already-trimmed input value and `articleId` the button's
`data-article-id`. -/
def addCommentRequest (articleId text : String) (cookieStr : String) : Request :=
  { url := "/api/add-comment/"
    method := "POST"
    contentType := some "application/json"
    csrfToken := some (getCookie cookieStr "csrftoken")
    body := some [("article_id", articleId), ("text", text)] }

/-- Embedding of the add-comment click handler of `initCommentHandlers`:
trim the input, alert and stop when the result is empty, otherwise POST it
and on success append the returned comment to the DOM and clear the
input. -/
def addCommentClick (articleId : String) (st : AddCommentState) (cookieStr : String)
    (resp : FetchOutcome AddCommentResp) : HandlerOutcome AddCommentState :=
  let text := jsTrim st.inputValue
  if text = "" then
    { requests := [], alerts := ["Введите текст комментария"], dom := st }
  else
    let req := addCommentRequest articleId text cookieStr
    match resp with
    | .ok data =>
      if data.success then
        { requests := [req], alerts := [],
          dom := { inputValue := "", list := addCommentToDOM st.list data.comment } }
      else
        { requests := [req], alerts := [errAlert data.error], dom := st }
    | .failed =>
      { requests := [req], alerts := ["Произошла ошибка при добавлении комментария"], dom := st }

/-- The `.comment-item` element the edit handler mutates: its
`data-comment-id`, the text content of its `.comment-text` child, and the
text content of its `.comment-date` child. -/
structure CommentItemEl where
  commentId : String
  text : String
  date : String
deriving Repr, DecidableEq

/-- Parsed JSON body of an `/api/edit-comment/<id>/` response. -/
structure EditResp where
  success : Bool
  comment : CommentResp
  error : Option String
deriving Repr, DecidableEq

/-- The request assembled by the edit-comment handler from the button's
`data-comment-id` and the prompt result. -/
def editCommentRequest (commentId newText : String) (cookieStr : String) : Request :=
  { url := "/api/edit-comment/" ++ commentId ++ "/"
    method := "POST"
    contentType := some "application/json"
    csrfToken := some (getCookie cookieStr "csrftoken")
    body := some [("text", newText)] }

/-- Embedding of the edit-comment branch of the delegated click handler in
`initCommentHandlers`.  `promptResult` is the value returned by `prompt`
(`none` for cancel).  A request is sent only when `newText` is truthy
(non-empty) and differs from `currentText`, which the script computes as the
trimmed text content of `.comment-text`. -/
def editCommentClick (commentId : String) (item : CommentItemEl)
    (promptResult : Option String) (cookieStr : String) (resp : FetchOutcome EditResp) :
    HandlerOutcome CommentItemEl :=
  let currentText := jsTrim item.text
  match promptResult with
  | none => { requests := [], alerts := [], dom := item }
  | some newText =>
    if newText = "" then { requests := [], alerts := [], dom := item }
    else if newText = currentText then { requests := [], alerts := [], dom := item }
    else
      let req := editCommentRequest commentId newText cookieStr
      match resp with
      | .ok data =>
        if data.success then
          { requests := [req], alerts := [],
            dom := { item with text := data.comment.text, date := data.comment.created_at } }
        else
          { requests := [req], alerts := [errAlert data.error], dom := item }
      | .failed =>
        { requests := [req], alerts := ["Произошла ошибка при редактировании комментария"],
          dom := item }

/-- Parsed JSON body of an `/api/delete-comment/<id>/` response. -/
structure SimpleResp where
  success : Bool
  error : Option String
deriving Repr, DecidableEq

/-- The DOM surrounding a delete click: the `data-comment-id`s of the
`.comment-item` children of the enclosing `.comments-list` other than the
clicked one, the number of `.no-comments` placeholder children of that list,
and whether the clicked `.comment-item` node is still attached to the list
(its `parentElement` chain reaches the list exactly when it is). -/
structure DeleteDomState where
  otherItems : List String
  placeholders : Nat
  clickedAttached : Bool
deriving Repr, DecidableEq

/-- The class attribute of a `.comment-item` node (`addCommentToDOM` sets
`className = 'comment-item'`; the page templates use the same class). -/
def commentItemClasses : List String := ["comment-item"]

/-- Model of `commentItem.closest('.comments-list')` returning non-null:
`closest` matches the element itself, then walks its ancestors.  The clicked
node's own classes do not contain `comments-list`, so the list is found
exactly when the node is still attached to it. -/
def closestCommentsList (attached : Bool) : Bool :=
  commentItemClasses.contains "comments-list" || attached

/-- Value of `commentsList.querySelectorAll('.comment-item').length` in a
given state: the clicked node counts only while it is attached. -/
def commentItemCount (st : DeleteDomState) : Nat :=
  st.otherItems.length + (if st.clickedAttached then 1 else 0)

/-- Embedding of the success branch of the delete handler, in source order:
`commentItem.remove()` first, then the `closest('.comments-list')` lookup
from the (now detached) node, then the empty-list placeholder append guarded
by that lookup. -/
def deleteCommentSuccessDom (st : DeleteDomState) : DeleteDomState :=
  let st1 := { st with clickedAttached := false }
  let listFound := closestCommentsList st1.clickedAttached
  if listFound ∧ commentItemCount st1 = 0 then
    { st1 with placeholders := st1.placeholders + 1 }
  else st1

/-- The request assembled by the delete-comment handler: note it carries the
two headers but no body. -/
def deleteCommentRequest (commentId : String) (cookieStr : String) : Request :=
  { url := "/api/delete-comment/" ++ commentId ++ "/"
    method := "POST"
    contentType := some "application/json"
    csrfToken := some (getCookie cookieStr "csrftoken")
    body := none }

/-- Embedding of the delete-comment branch of the delegated click handler in
`initCommentHandlers`.  `confirmed` is the value returned by `confirm`. -/
def deleteCommentClick (commentId : String) (st : DeleteDomState) (confirmed : Bool)
    (cookieStr : String) (resp : FetchOutcome SimpleResp) : HandlerOutcome DeleteDomState :=
  if confirmed = false then
    { requests := [], alerts := [], dom := st }
  else
    let req := deleteCommentRequest commentId cookieStr
    match resp with
    | .ok data =>
      if data.success then
        { requests := [req], alerts := [], dom := deleteCommentSuccessDom st }
      else
        { requests := [req], alerts := [errAlert data.error], dom := st }
    | .failed =>
      { requests := [req], alerts := ["Произошла ошибка при удалении комментария"], dom := st }


/-! ## Helper lemmas characterizing the requests each handler issues -/

theorem favoriteClick_requests (btn : FavButton) (ck : String) (resp : FetchOutcome FavResp) :
    (favoriteClick btn ck resp).requests = [favoriteRequest btn.dataset ck] := by
  cases resp with
  | ok d => by_cases hs : d.success <;> by_cases hf : d.is_favorite <;>
      simp [favoriteClick, hs, hf]
  | failed => rfl

theorem reactionClick_requests (rt au : String) (card : List ReactionButton) (ck : String)
    (resp : FetchOutcome ReactResp) :
    (reactionClick rt au card ck resp).requests = [reactionRequest rt au ck] := by
  cases resp with
  | ok d => by_cases hs : d.success <;> simp [reactionClick, hs]
  | failed => rfl

theorem addCommentClick_requests (aid : String) (st : AddCommentState) (ck : String)
    (resp : FetchOutcome AddCommentResp) :
    (addCommentClick aid st ck resp).requests =
      if jsTrim st.inputValue = "" then []
      else [addCommentRequest aid (jsTrim st.inputValue) ck] := by
  by_cases ht : jsTrim st.inputValue = ""
  · simp [addCommentClick, ht]
  · cases resp with
    | ok d => by_cases hs : d.success <;> simp [addCommentClick, ht, hs]
    | failed => simp [addCommentClick, ht]

theorem editCommentClick_requests (cid : String) (item : CommentItemEl) (p : Option String)
    (ck : String) (resp : FetchOutcome EditResp) :
    (editCommentClick cid item p ck resp).requests =
      match p with
      | none => []
      | some s =>
        if s = "" ∨ s = jsTrim item.text then [] else [editCommentRequest cid s ck] := by
  cases p with
  | none => rfl
  | some s =>
    by_cases h1 : s = ""
    · simp [editCommentClick, h1]
    · by_cases h2 : s = jsTrim item.text
      · simp [editCommentClick, h1, h2]
      · cases resp with
        | ok d => by_cases hs : d.success <;> simp [editCommentClick, h1, h2, hs]
        | failed => simp [editCommentClick, h1, h2]

theorem deleteCommentClick_requests (cid : String) (st : DeleteDomState) (conf : Bool)
    (ck : String) (resp : FetchOutcome SimpleResp) :
    (deleteCommentClick cid st conf ck resp).requests =
      if conf then [deleteCommentRequest cid ck] else [] := by
  cases conf with
  | false => rfl
  | true =>
    cases resp with
    | ok d => by_cases hs : d.success <;> simp [deleteCommentClick, hs]
    | failed => simp [deleteCommentClick]

/-- Property every request of the script satisfies, given the cookie string:
method POST, JSON content type, and the CSRF header sourced from
`getCookie(csrftoken)`. -/
def requestWellFormed (ck : String) (r : Request) : Prop :=
  r.method = "POST" ∧ r.contentType = some "application/json"
    ∧ r.csrfToken = some (getCookie ck "csrftoken")

/-- Claim C1: every HTTP request issued by the client script's five handlers
(toggle-favorite, add-reaction, add-comment, edit-comment, delete-comment)
uses method POST with Content-Type application/json and carries an
X-CSRFToken header whose value is the result of `getCookie('csrftoken')`;
no fetch call in the script omits this header. -/
theorem claim_c1_every_request_post_json_csrf :
    (∀ btn ck resp, ∀ r ∈ (favoriteClick btn ck resp).requests, requestWellFormed ck r)
    ∧ (∀ rt au card ck resp, ∀ r ∈ (reactionClick rt au card ck resp).requests,
        requestWellFormed ck r)
    ∧ (∀ aid st ck resp, ∀ r ∈ (addCommentClick aid st ck resp).requests,
        requestWellFormed ck r)
    ∧ (∀ cid item p ck resp, ∀ r ∈ (editCommentClick cid item p ck resp).requests,
        requestWellFormed ck r)
    ∧ (∀ cid st conf ck resp, ∀ r ∈ (deleteCommentClick cid st conf ck resp).requests,
        requestWellFormed ck r) := by
  refine ⟨?_, ?_, ?_, ?_, ?_⟩
  · intro btn ck resp r hr
    rw [favoriteClick_requests] at hr
    simp only [List.mem_singleton] at hr
    subst hr
    exact ⟨rfl, rfl, rfl⟩
  · intro rt au card ck resp r hr
    rw [reactionClick_requests] at hr
    simp only [List.mem_singleton] at hr
    subst hr
    exact ⟨rfl, rfl, rfl⟩
  · intro aid st ck resp r hr
    rw [addCommentClick_requests] at hr
    split at hr
    · simp at hr
    · simp only [List.mem_singleton] at hr
      subst hr
      exact ⟨rfl, rfl, rfl⟩
  · intro cid item p ck resp r hr
    rw [editCommentClick_requests] at hr
    rcases p with _ | s
    · simp at hr
    · simp only at hr
      split at hr
      · simp at hr
      · simp only [List.mem_singleton] at hr
        subst hr
        exact ⟨rfl, rfl, rfl⟩
  · intro cid st conf ck resp r hr
    rw [deleteCommentClick_requests] at hr
    split at hr
    · simp only [List.mem_singleton] at hr
      subst hr
      exact ⟨rfl, rfl, rfl⟩
    · simp at hr

/-- A concrete favorite button used by witnesses. -/
def favBtnEx : FavButton :=
  { dataset := { url := "u", title := "t", description := "d", image := "i",
                 source := "{}", published := "p" }
    icon := "☆", titleAttr := "В избранное" }

/-- Witness for claim C1 at a concrete input: the request the favorite
handler issues for a concrete button and cookie string is well formed. -/
theorem claim_c1_witness :
    requestWellFormed "csrftoken=abc" (favoriteRequest favBtnEx.dataset "csrftoken=abc") :=
  claim_c1_every_request_post_json_csrf.1 favBtnEx "csrftoken=abc"
    (.ok { success := true, is_favorite := true, error := none })
    (favoriteRequest favBtnEx.dataset "csrftoken=abc")
    (by rw [favoriteClick_requests]; exact List.mem_singleton.2 rfl)

/-- A fetch outcome the script treats as a failure: a rejected promise (or a
body that fails to parse), or a parsed body whose `success` field is not
set. -/
def isFailureOutcome {α : Type} (succ : α → Bool) : FetchOutcome α → Bool
  | .ok d => !(succ d)
  | .failed => true

/-- Claim C3: for every handler in the client script, whenever the parsed
response has `success` false or the fetch/parse rejects, the handler shows
exactly one blocking alert, leaves the DOM state of the affected element
unchanged, and issues no retry request (exactly the one original fetch). -/
theorem claim_c3_failure_alert_no_mutation_no_retry :
    (∀ btn ck resp, isFailureOutcome (fun d => d.success) resp = true →
      (favoriteClick btn ck resp).alerts.length = 1
      ∧ (favoriteClick btn ck resp).dom = btn
      ∧ (favoriteClick btn ck resp).requests.length = 1)
    ∧ (∀ rt au card ck resp, isFailureOutcome (fun d => d.success) resp = true →
      (reactionClick rt au card ck resp).alerts.length = 1
      ∧ (reactionClick rt au card ck resp).dom = card
      ∧ (reactionClick rt au card ck resp).requests.length = 1)
    ∧ (∀ aid st ck resp, jsTrim st.inputValue ≠ "" →
      isFailureOutcome (fun d => d.success) resp = true →
      (addCommentClick aid st ck resp).alerts.length = 1
      ∧ (addCommentClick aid st ck resp).dom = st
      ∧ (addCommentClick aid st ck resp).requests.length = 1)
    ∧ (∀ cid item s ck resp, s ≠ "" → s ≠ jsTrim item.text →
      isFailureOutcome (fun d => d.success) resp = true →
      (editCommentClick cid item (some s) ck resp).alerts.length = 1
      ∧ (editCommentClick cid item (some s) ck resp).dom = item
      ∧ (editCommentClick cid item (some s) ck resp).requests.length = 1)
    ∧ (∀ cid st ck resp, isFailureOutcome (fun d => d.success) resp = true →
      (deleteCommentClick cid st true ck resp).alerts.length = 1
      ∧ (deleteCommentClick cid st true ck resp).dom = st
      ∧ (deleteCommentClick cid st true ck resp).requests.length = 1) := by
  refine ⟨?_, ?_, ?_, ?_, ?_⟩
  · intro btn ck resp hfail
    cases resp with
    | ok d =>
      have hs : d.success = false := by simpa [isFailureOutcome] using hfail
      simp [favoriteClick, hs]
    | failed => simp [favoriteClick]
  · intro rt au card ck resp hfail
    cases resp with
    | ok d =>
      have hs : d.success = false := by simpa [isFailureOutcome] using hfail
      simp [reactionClick, hs]
    | failed => simp [reactionClick]
  · intro aid st ck resp ht hfail
    cases resp with
    | ok d =>
      have hs : d.success = false := by simpa [isFailureOutcome] using hfail
      simp [addCommentClick, ht, hs]
    | failed => simp [addCommentClick, ht]
  · intro cid item s ck resp h1 h2 hfail
    cases resp with
    | ok d =>
      have hs : d.success = false := by simpa [isFailureOutcome] using hfail
      simp [editCommentClick, h1, h2, hs]
    | failed => simp [editCommentClick, h1, h2]
  · intro cid st ck resp hfail
    cases resp with
    | ok d =>
      have hs : d.success = false := by simpa [isFailureOutcome] using hfail
      simp [deleteCommentClick, hs]
    | failed => simp [deleteCommentClick]

/-- Witness for claim C3 at a concrete input: a rejected toggle-favorite
fetch produces one alert, an unchanged button, and a single request. -/
theorem claim_c3_witness :
    (favoriteClick favBtnEx "" .failed).alerts.length = 1
    ∧ (favoriteClick favBtnEx "" .failed).dom = favBtnEx
    ∧ (favoriteClick favBtnEx "" .failed).requests.length = 1 :=
  claim_c3_failure_alert_no_mutation_no_retry.1 favBtnEx "" .failed (by decide)

/-- Claim C5: when the toggle-favorite response has `success` true, the
button's icon text becomes the filled star with the remove-from-favorites
title if `is_favorite` is true, and the empty star with the
add-to-favorites title if it is false; nothing else about the button
changes and no alert is shown. -/
theorem claim_c5_favorite_success_dom (btn : FavButton) (ck : String) (d : FavResp)
    (hs : d.success = true) :
    (favoriteClick btn ck (.ok d)).dom =
      (if d.is_favorite then
        { btn with icon := "⭐", titleAttr := "Удалить из избранного" }
      else
        { btn with icon := "☆", titleAttr := "Добавить в избранное" })
    ∧ (favoriteClick btn ck (.ok d)).alerts = [] := by
  by_cases hf : d.is_favorite <;> simp [favoriteClick, hs, hf]

/-- Witness for claim C5 at a concrete input. -/
theorem claim_c5_witness :
    (favoriteClick favBtnEx "" (.ok { success := true, is_favorite := true, error := none })).dom =
      (if (true : Bool) then
        { favBtnEx with icon := "⭐", titleAttr := "Удалить из избранного" }
      else
        { favBtnEx with icon := "☆", titleAttr := "Добавить в избранное" })
    ∧ (favoriteClick favBtnEx ""
        (.ok { success := true, is_favorite := true, error := none })).alerts = [] :=
  claim_c5_favorite_success_dom favBtnEx "" { success := true, is_favorite := true, error := none }
    rfl

/-! ## Lemmas about `updateReactionButtons` -/

theorem updateReactionButton_reaction (rc : Option (List (String × Nat))) (ur : Option String)
    (b : ReactionButton) : (updateReactionButton rc ur b).reaction = b.reaction := by
  by_cases h : ur = some b.reaction <;>
    by_cases hc : jsCountLookup rc b.reaction > 0 <;>
      simp [updateReactionButton, h, hc]

theorem updateReactionButton_active (rc : Option (List (String × Nat))) (ur : Option String)
    (b : ReactionButton) :
    (updateReactionButton rc ur b).active = decide (ur = some b.reaction) := by
  by_cases h : ur = some b.reaction <;>
    by_cases hc : jsCountLookup rc b.reaction > 0 <;>
      simp [updateReactionButton, h, hc]

theorem countP_active_le_one (rc : Option (List (String × Nat))) (ur : Option String) :
    ∀ card : List ReactionButton, (card.map (fun b => b.reaction)).Nodup →
      (updateReactionButtons card rc ur).countP (fun b => b.active) ≤ 1 := by
  intro card
  induction card with
  | nil => intro _; simp [updateReactionButtons]
  | cons b cs ih =>
    intro hnd
    rw [List.map_cons, List.nodup_cons] at hnd
    obtain ⟨hb, hnd2⟩ := hnd
    rw [updateReactionButtons, List.map_cons, List.countP_cons]
    by_cases h : ur = some b.reaction
    · have htail : (cs.map (updateReactionButton rc ur)).countP (fun x => x.active) = 0 := by
        rw [List.countP_eq_zero]
        intro x hx
        rw [List.mem_map] at hx
        obtain ⟨a, ha, rfl⟩ := hx
        have hne : a.reaction ≠ b.reaction := by
          intro heq
          exact hb (heq ▸ List.mem_map_of_mem (fun y => y.reaction) ha)
        simp only [updateReactionButton_active, h, decide_eq_true_eq]
        intro hc
        exact hne (Option.some.inj hc).symm
      rw [htail]
      split <;> omega
    · have hhead : (updateReactionButton rc ur b).active = false := by
        simp [updateReactionButton_active, h]
      have ht := ih hnd2
      rw [updateReactionButtons] at ht
      simpa [hhead] using ht

/-- Claim C4: after `updateReactionButtons` runs on an article card (whose
reaction buttons carry pairwise distinct `data-reaction` values) with any
response data, at most one button has the `active` class, and a button is
active exactly when its `data-reaction` equals the caller's resulting
reaction type; when the resulting reaction type is null, no button is
active. -/
theorem claim_c4_at_most_one_active (card : List ReactionButton)
    (rc : Option (List (String × Nat))) (ur : Option String)
    (hnd : (card.map (fun b => b.reaction)).Nodup) :
    (updateReactionButtons card rc ur).countP (fun b => b.active) ≤ 1
    ∧ (∀ b ∈ updateReactionButtons card rc ur, b.active = true ↔ ur = some b.reaction)
    ∧ (ur = none → ∀ b ∈ updateReactionButtons card rc ur, b.active = false) := by
  refine ⟨countP_active_le_one rc ur card hnd, ?_, ?_⟩
  · intro b hb
    rw [updateReactionButtons, List.mem_map] at hb
    obtain ⟨a, _, rfl⟩ := hb
    rw [updateReactionButton_active, updateReactionButton_reaction]
    simp
  · intro hur b hb
    rw [updateReactionButtons, List.mem_map] at hb
    obtain ⟨a, _, rfl⟩ := hb
    rw [updateReactionButton_active, hur]
    simp

/-- A concrete article card used by witnesses: five reaction buttons with the
reaction types the application uses. -/
def cardEx : List ReactionButton :=
  [{ reaction := "important", active := false, countText := "", countDisplay := "none" },
   { reaction := "interesting", active := true, countText := "3", countDisplay := "inline" },
   { reaction := "shocking", active := false, countText := "", countDisplay := "none" },
   { reaction := "useful", active := false, countText := "", countDisplay := "none" },
   { reaction := "liked", active := false, countText := "2", countDisplay := "inline" }]

/-- Witness for claim C4 at a concrete input. -/
theorem claim_c4_witness :
    (updateReactionButtons cardEx (some [("liked", 2), ("interesting", 3)])
        (some "liked")).countP (fun b => b.active) ≤ 1
    ∧ (∀ b ∈ updateReactionButtons cardEx (some [("liked", 2), ("interesting", 3)])
        (some "liked"), b.active = true ↔ some "liked" = some b.reaction)
    ∧ ((some "liked" : Option String) = none →
        ∀ b ∈ updateReactionButtons cardEx (some [("liked", 2), ("interesting", 3)])
          (some "liked"), b.active = false) :=
  claim_c4_at_most_one_active cardEx (some [("liked", 2), ("interesting", 3)]) (some "liked")
    (by decide)

/-- Claim C6: after `updateReactionButtons` runs, every reaction button whose
type has a truthy (positive) count in the `reactions_count` map shows that
number inline, and every other button (count zero, entry absent, or map
absent) has empty count text and a hidden count element. -/
theorem claim_c6_count_display (card : List ReactionButton)
    (rc : Option (List (String × Nat))) (ur : Option String) :
    ∀ b ∈ updateReactionButtons card rc ur,
      (0 < jsCountLookup rc b.reaction →
        b.countText = toString (jsCountLookup rc b.reaction) ∧ b.countDisplay = "inline")
      ∧ (jsCountLookup rc b.reaction = 0 →
        b.countText = "" ∧ b.countDisplay = "none") := by
  intro b hb
  rw [updateReactionButtons, List.mem_map] at hb
  obtain ⟨a, _, rfl⟩ := hb
  rw [updateReactionButton_reaction]
  by_cases h : ur = some a.reaction <;>
    by_cases hc : jsCountLookup rc a.reaction > 0 <;>
      constructor <;> intro hx <;> simp [updateReactionButton, h, hc] <;> omega

/-- Witness for claim C6 at a concrete input: the liked button of the
concrete card shows its count of 2 after the update. -/
theorem claim_c6_witness :
    ((0 < jsCountLookup (some [("liked", 2)]) "liked" →
      (updateReactionButton (some [("liked", 2)]) none
        { reaction := "liked", active := true, countText := "", countDisplay := "none" }).countText
          = toString (jsCountLookup (some [("liked", 2)]) "liked")
      ∧ (updateReactionButton (some [("liked", 2)]) none
        { reaction := "liked", active := true, countText := "", countDisplay := "none" }).countDisplay
          = "inline")
    ∧ (jsCountLookup (some [("liked", 2)]) "liked" = 0 →
      (updateReactionButton (some [("liked", 2)]) none
        { reaction := "liked", active := true, countText := "", countDisplay := "none" }).countText = ""
      ∧ (updateReactionButton (some [("liked", 2)]) none
        { reaction := "liked", active := true, countText := "", countDisplay := "none" }).countDisplay
          = "none")) := by
  have h := claim_c6_count_display
    [{ reaction := "liked", active := true, countText := "", countDisplay := "none" }]
    (some [("liked", 2)]) none
    (updateReactionButton (some [("liked", 2)]) none
      { reaction := "liked", active := true, countText := "", countDisplay := "none" })
    (by simp [updateReactionButtons])
  have hr : (updateReactionButton (some [("liked", 2)]) none
      { reaction := "liked", active := true, countText := "", countDisplay := "none" }).reaction
      = "liked" := by decide
  rw [hr] at h
  exact h

/-- Claim C2: when the input's trimmed value is empty, the add-comment click
handler shows the validation alert and issues no HTTP request (and touches
nothing); when the trimmed value is non-empty, it issues exactly one POST
to `/api/add-comment/` whose body carries the trimmed text and the
button's article id. -/
theorem claim_c2_add_comment_validation (aid : String) (st : AddCommentState) (ck : String)
    (resp : FetchOutcome AddCommentResp) :
    (jsTrim st.inputValue = "" →
      (addCommentClick aid st ck resp).requests = []
      ∧ (addCommentClick aid st ck resp).alerts = ["Введите текст комментария"]
      ∧ (addCommentClick aid st ck resp).dom = st)
    ∧ (jsTrim st.inputValue ≠ "" →
      (addCommentClick aid st ck resp).requests = [addCommentRequest aid (jsTrim st.inputValue) ck]
      ∧ (addCommentRequest aid (jsTrim st.inputValue) ck).url = "/api/add-comment/"
      ∧ (addCommentRequest aid (jsTrim st.inputValue) ck).method = "POST"
      ∧ (addCommentRequest aid (jsTrim st.inputValue) ck).body =
          some [("article_id", aid), ("text", jsTrim st.inputValue)]) := by
  constructor
  · intro ht
    simp [addCommentClick, ht]
  · intro ht
    refine ⟨?_, rfl, rfl, rfl⟩
    rw [addCommentClick_requests]
    simp [ht]

/-- Witness for claim C2 at a concrete input with non-empty trimmed text. -/
theorem claim_c2_witness :
    (addCommentClick "5" { inputValue := "  hi  ", list := { comments := [], noCommentsMsgs := 1 } }
        "" (.ok { success := true, comment := { id := "1", text := "hi", created_at := "now" },
                  error := none })).requests
      = [addCommentRequest "5" (jsTrim "  hi  ") ""]
    ∧ (addCommentRequest "5" (jsTrim "  hi  ") "").url = "/api/add-comment/"
    ∧ (addCommentRequest "5" (jsTrim "  hi  ") "").method = "POST"
    ∧ (addCommentRequest "5" (jsTrim "  hi  ") "").body =
        some [("article_id", "5"), ("text", jsTrim "  hi  ")] :=
  (claim_c2_add_comment_validation "5"
      { inputValue := "  hi  ", list := { comments := [], noCommentsMsgs := 1 } } ""
      (.ok { success := true, comment := { id := "1", text := "hi", created_at := "now" },
             error := none })).2 (by decide)

/-- Claim C7: the edit-comment handler issues a request only when the prompt
result is a non-empty string different from the current displayed text
(the trimmed text content of `.comment-text`); cancelling, an empty
string, or unchanged text issues no request and leaves the DOM unchanged.
On a success response it sets the displayed text to the response's
`comment.text` and the displayed date to `comment.created_at`, changing
nothing else of the item. -/
theorem claim_c7_edit_comment (cid : String) (item : CommentItemEl) (p : Option String)
    (ck : String) (resp : FetchOutcome EditResp) :
    ((p = none ∨ p = some "" ∨ p = some (jsTrim item.text)) →
      (editCommentClick cid item p ck resp).requests = []
      ∧ (editCommentClick cid item p ck resp).alerts = []
      ∧ (editCommentClick cid item p ck resp).dom = item)
    ∧ (∀ s, p = some s → s ≠ "" → s ≠ jsTrim item.text →
      (editCommentClick cid item p ck resp).requests = [editCommentRequest cid s ck]
      ∧ ∀ d, resp = .ok d → d.success = true →
          (editCommentClick cid item p ck resp).dom =
            { item with text := d.comment.text, date := d.comment.created_at }
          ∧ (editCommentClick cid item p ck resp).alerts = []) := by
  constructor
  · rintro (rfl | rfl | rfl)
    · exact ⟨rfl, rfl, rfl⟩
    · simp [editCommentClick]
    · simp [editCommentClick]
  · rintro s rfl h1 h2
    constructor
    · rw [editCommentClick_requests]
      simp [h1, h2]
    · rintro d rfl hs
      simp [editCommentClick, h1, h2, hs]

/-- A concrete comment item used by witnesses. -/
def itemEx : CommentItemEl := { commentId := "9", text := "old", date := "yesterday" }

/-- Witness for claim C7 at a concrete input: prompt returned a new non-empty
text and the response succeeded. -/
theorem claim_c7_witness :
    ((editCommentClick "9" itemEx (some "new") ""
        (.ok { success := true, comment := { id := "9", text := "new", created_at := "today" },
               error := none })).requests = [editCommentRequest "9" "new" ""])
    ∧ (editCommentClick "9" itemEx (some "new") ""
        (.ok { success := true, comment := { id := "9", text := "new", created_at := "today" },
               error := none })).dom = { itemEx with text := "new", date := "today" } := by
  have h := (claim_c7_edit_comment "9" itemEx (some "new") ""
      (.ok { success := true, comment := { id := "9", text := "new", created_at := "today" },
             error := none })).2 "new" rfl (by decide) (by decide)
  exact ⟨h.1, (h.2 { success := true, comment := { id := "9", text := "new", created_at := "today" },
                     error := none } rfl rfl).1⟩

/-- Claim C8: the delete-comment handler issues a request only after the user
confirms the dialog — declining issues no request and leaves the DOM
unchanged — and on a success response the clicked comment node is removed
from the document (it is detached from its comments list). -/
theorem claim_c8_delete_comment (cid : String) (st : DeleteDomState) (conf : Bool)
    (ck : String) (resp : FetchOutcome SimpleResp) :
    (conf = false →
      (deleteCommentClick cid st conf ck resp).requests = []
      ∧ (deleteCommentClick cid st conf ck resp).alerts = []
      ∧ (deleteCommentClick cid st conf ck resp).dom = st)
    ∧ ((deleteCommentClick cid st conf ck resp).requests ≠ [] → conf = true)
    ∧ (∀ d, conf = true → resp = .ok d → d.success = true →
      (deleteCommentClick cid st conf ck resp).dom.clickedAttached = false
      ∧ (deleteCommentClick cid st conf ck resp).requests = [deleteCommentRequest cid ck]) := by
  refine ⟨?_, ?_, ?_⟩
  · rintro rfl
    exact ⟨rfl, rfl, rfl⟩
  · intro hreq
    cases conf with
    | true => rfl
    | false => exact absurd rfl hreq
  · rintro d rfl rfl hs
    constructor
    · simp [deleteCommentClick, hs, deleteCommentSuccessDom, closestCommentsList,
        commentItemClasses]
    · rw [deleteCommentClick_requests]
      simp

/-- A concrete delete-handler DOM state used by witnesses: the clicked
comment is attached and one sibling comment remains. -/
def delStEx : DeleteDomState :=
  { otherItems := ["c2"], placeholders := 0, clickedAttached := true }

/-- Witness for claim C8 at a concrete input: a confirmed delete with a
success response detaches the comment node. -/
theorem claim_c8_witness :
    (deleteCommentClick "c1" delStEx true "" (.ok { success := true, error := none })).dom.clickedAttached
      = false
    ∧ (deleteCommentClick "c1" delStEx true ""
        (.ok { success := true, error := none })).requests = [deleteCommentRequest "c1" ""] :=
  (claim_c8_delete_comment "c1" delStEx true "" (.ok { success := true, error := none })).2.2
    { success := true, error := none } rfl rfl rfl

/-! ## Properties of `escapeHtml` and the comment template -/

/-- A character `escapeHtml` must never let through: angle brackets and the
two quote characters. -/
def isHtmlSpecial (c : Char) : Bool :=
  (c == '<') || (c == '>') || (c == dquote) || (c == squote)

/-- Whether a pattern is a head of a character list. -/
def headMatches : List Char → List Char → Bool
  | [], _ => true
  | _ :: _, [] => false
  | p :: ps, c :: cs => (p == c) && headMatches ps cs

/-- Whether a character list begins with the tail of one of the five
entities produced by `escapeHtml` (everything after the ampersand). -/
def entityHead (l : List Char) : Bool :=
  headMatches ['a', 'm', 'p', ';'] l || headMatches ['l', 't', ';'] l
    || headMatches ['g', 't', ';'] l || headMatches ['q', 'u', 'o', 't', ';'] l
    || headMatches ['#', '0', '3', '9', ';'] l

/-- Checker that every ampersand in a character list begins one of the five
entities `&amp; &lt; &gt; &quot; &#039;`. -/
def ampOk : List Char → Bool
  | [] => true
  | c :: rest => (if c = '&' then entityHead rest else true) && ampOk rest

theorem escapeChar_no_special (x : Char) : ∀ c ∈ escapeChar x, isHtmlSpecial c = false := by
  intro c hc
  by_cases h1 : x = '&'
  · simp [escapeChar, h1] at hc
    rcases hc with rfl | rfl | rfl | rfl | rfl <;> decide
  · by_cases h2 : x = '<'
    · simp [escapeChar, h1, h2] at hc
      rcases hc with rfl | rfl | rfl | rfl <;> decide
    · by_cases h3 : x = '>'
      · simp [escapeChar, h1, h2, h3] at hc
        rcases hc with rfl | rfl | rfl | rfl <;> decide
      · by_cases h4 : x = dquote
        · have he : escapeChar x = ['&', 'q', 'u', 'o', 't', ';'] := by
            subst h4; decide
          rw [he] at hc
          fin_cases hc <;> decide
        · by_cases h5 : x = squote
          · have he : escapeChar x = ['&', '#', '0', '3', '9', ';'] := by
              subst h5; decide
            rw [he] at hc
            fin_cases hc <;> decide
          · simp [escapeChar, h1, h2, h3, h4, h5] at hc
            subst hc
            simp [isHtmlSpecial, h2, h3, h4, h5]

theorem ampOk_append_escapeChar (x : Char) (l : List Char) (h : ampOk l = true) :
    ampOk (escapeChar x ++ l) = true := by
  by_cases h1 : x = '&'
  · simp [escapeChar, h1, ampOk, entityHead, headMatches, h]
  · by_cases h2 : x = '<'
    · simp [escapeChar, h1, h2, ampOk, entityHead, headMatches, h]
    · by_cases h3 : x = '>'
      · simp [escapeChar, h1, h2, h3, ampOk, entityHead, headMatches, h]
      · by_cases h4 : x = dquote
        · simp [escapeChar, h1, h2, h3, h4, ampOk, entityHead, headMatches, h]
        · by_cases h5 : x = squote
          · simp [escapeChar, h1, h2, h3, h4, h5, ampOk, entityHead, headMatches, h]
          · simp [escapeChar, h1, h2, h3, h4, h5, ampOk, h]

theorem ampOk_escape_list (l : List Char) : ampOk (l.flatMap escapeChar) = true := by
  induction l with
  | nil => rfl
  | cons x xs ih =>
    rw [List.flatMap_cons]
    exact ampOk_append_escapeChar x _ ih

theorem escape_list_no_special (l : List Char) :
    ∀ c ∈ l.flatMap escapeChar, isHtmlSpecial c = false := by
  induction l with
  | nil => simp
  | cons x xs ih =>
    intro c hc
    rw [List.flatMap_cons, List.mem_append] at hc
    rcases hc with hc | hc
    · exact escapeChar_no_special x c hc
    · exact ih c hc

/-- The constant template segments of `addCommentToDOM`'s `innerHTML`. -/
def tplPre : String := "\n\t\t<div class=\"comment-content\">\n\t\t\t<p class=\"comment-text\">"

def tplAfterText : String := "</p>\n\t\t\t<span class=\"comment-date\">"

def tplAfterDate : String :=
  "</span>\n\t\t</div>\n\t\t<div class=\"comment-actions\">\n\t\t\t<button class=\"edit-comment-btn\" data-comment-id=\""

def tplAfterEditId : String :=
  "\">Редактировать</button>\n\t\t\t<button class=\"delete-comment-btn\" data-comment-id=\""

def tplEnd : String := "\">Удалить</button>\n\t\t</div>\n\t"

/-- Claim C9: for every input string, `escapeHtml` outputs no `<`, `>`,
double-quote or single-quote character, and every ampersand in its output
begins one of the five entities `&amp; &lt; &gt; &quot; &#039;`; in the
`innerHTML` string `addCommentToDOM` assembles, the comment text passes
through `escapeHtml` while `comment.created_at` and `comment.id` are
interpolated unescaped. -/
theorem claim_c9_escape_html_and_template :
    (∀ t : String, (∀ c ∈ (escapeHtml t).data, isHtmlSpecial c = false)
      ∧ ampOk (escapeHtml t).data = true)
    ∧ (∀ c : CommentResp, commentItemHtml c =
        tplPre ++ escapeHtml c.text ++ tplAfterText ++ c.created_at ++ tplAfterDate
          ++ c.id ++ tplAfterEditId ++ c.id ++ tplEnd) := by
  constructor
  · intro t
    exact ⟨escape_list_no_special t.data, ampOk_escape_list t.data⟩
  · intro c
    rfl

/-- Witness for claim C9 at a concrete input: `escapeHtml` applied to a
string holding an injection attempt, evaluated through the theorem's
universally quantified parts. -/
theorem claim_c9_witness :
    isHtmlSpecial 'x' = false ∧ ampOk (escapeHtml "a<b").data = true :=
  ⟨(claim_c9_escape_html_and_template.1 "x").1 'x' (by decide),
   (claim_c9_escape_html_and_template.1 "a<b").2⟩

/-- Claim C10 (code behavior at the claimed scenario): the delete handler
looks up the comments list via `closest()` only after the clicked node has
been removed, so the lookup returns null and the no-comments placeholder is
never appended — in particular not in the claimed scenario where the deleted
comment was the last one.  The first conjunct shows no state ever gains a
placeholder; the second evaluates the handler at the failing input (a list
whose only `.comment-item` is the clicked one, with a success response). -/
theorem claim_c10_placeholder_never_appended :
    (∀ st : DeleteDomState, (deleteCommentSuccessDom st).placeholders = st.placeholders
      ∧ (deleteCommentSuccessDom st).clickedAttached = false)
    ∧ (deleteCommentClick "c1" { otherItems := [], placeholders := 0, clickedAttached := true }
        true "" (.ok { success := true, error := none })).dom =
      { otherItems := [], placeholders := 0, clickedAttached := false } := by
  constructor
  · intro st
    constructor <;>
      simp [deleteCommentSuccessDom, closestCommentsList, commentItemClasses]
  · rfl
